import Mathlib

/-
  Verification of the safartrip marketplace booking core.

  Shallow embedding of the storage layer (src/db_postgres.py), the dispatch
  and callback handlers (src/booking_dispatch.py) and the user registration /
  phone normalization flow (src/listings_user_flow.py).

  Conventions:
  - timestamps are naturals (seconds); `interval '5 minutes'` is 300;
  - SQL NULL is `Option.none`;
  - a Python value used in a boolean context ("truthiness") treats `None`
    and `0` as false, which is embedded explicitly (`pyOrOptInt` etc.);
  - each guarded UPDATE on a single row (matched by primary key) is a
    function `Booking → Booking × Bool`, the Bool being the result of the
    Python comparison `res == "UPDATE 1"` (exactly one row matched).
-/

namespace Safartrip

/-- Booking status values used by the marketplace core
    (src/db_postgres.py: 'pending_partner', 'sent', 'accepted',
    'rejected', 'timeout'). -/
inductive BookingStatus where
  | pending_partner
  | sent
  | accepted
  | rejected
  | timeout
deriving DecidableEq, Repr

/-- Terminal statuses: once reached, the guards of all status-changing
    UPDATEs in db_postgres.py exclude the row. -/
def BookingStatus.isTerminal : BookingStatus → Bool
  | .accepted => true
  | .rejected => true
  | .timeout => true
  | _ => false

/-- One row of the `bookings` table (columns used by the claims;
    src/db_postgres.py bookings CRUD).  `payload` is kept opaque. -/
structure Booking where
  id : Nat
  listing_id : Nat
  user_telegram_id : Int
  owner_user_id : Option Int
  payload : String
  status : BookingStatus
  created_at : Nat
  dispatched_at : Option Nat
  expires_at : Option Nat
  partner_message_id : Option Int
deriving DecidableEq, Repr

/-- One row of the `listings` table (columns used by the claims). -/
structure Listing where
  id : Nat
  telegram_admin_id : Int
  owner_user_id : Option Int
deriving DecidableEq, Repr

/-- One row of the `users` table (columns used by the claims;
    phone may be NULL). -/
structure UserRow where
  telegram_id : Int
  phone : Option String
  first_name : Option String
  last_name : Option String
deriving DecidableEq, Repr

/-- Python `a or b` where `a : Option Int` (None and 0 are falsy). -/
def pyOrOptInt (a : Option Int) (b : Option Int) : Option Int :=
  match a with
  | some v => if v = 0 then b else some v
  | none => b

/-- Python `int(owner) if owner else 0` applied to an optional value. -/
def pyIntOrZero (a : Option Int) : Int :=
  match a with
  | some v => if v = 0 then 0 else v
  | none => 0

/-! ## Storage layer: guarded single-row UPDATEs (src/db_postgres.py) -/

/-- `accept_booking_atomic` (db_postgres.py:880-907): the single UPDATE
    `SET status='accepted' WHERE id=$1 AND status IN
    ('pending_partner','sent') AND owner_user_id=$2` applied to the row
    with the given id.  SQL `owner_user_id = $2` is false on NULL. -/
def accept_booking_atomic (owner_user_id : Int) (b : Booking) : Booking × Bool :=
  if (b.status = .pending_partner ∨ b.status = .sent)
      ∧ b.owner_user_id = some owner_user_id then
    ({ b with status := .accepted }, true)
  else
    (b, false)

/-- `reject_booking_atomic` (db_postgres.py:910-936): same guard,
    `SET status='rejected'`. -/
def reject_booking_atomic (owner_user_id : Int) (b : Booking) : Booking × Bool :=
  if (b.status = .pending_partner ∨ b.status = .sent)
      ∧ b.owner_user_id = some owner_user_id then
    ({ b with status := .rejected }, true)
  else
    (b, false)

/-- `update_booking_status` (db_postgres.py:857-877): the UPDATE
    `SET status=$1 WHERE id=$2` — no status constraint, no owner
    constraint; it matches whenever the row exists. -/
def update_booking_status (st : BookingStatus) (b : Booking) : Booking × Bool :=
  ({ b with status := st }, true)

/-- `mark_booking_dispatched` (db_postgres.py:1039-1068): the single UPDATE
    `SET status='sent', dispatched_at=NOW(),
    partner_message_id=COALESCE(partner_message_id,$1)
    WHERE id=$2 AND status='pending_partner'`. -/
def mark_booking_dispatched (partner_msg_id : Int) (now : Nat) (b : Booking) :
    Booking × Bool :=
  if b.status = .pending_partner then
    ({ b with
        status := .sent,
        dispatched_at := some now,
        partner_message_id := some (b.partner_message_id.getD partner_msg_id) },
      true)
  else
    (b, false)

/-- `save_partner_message_id` (db_postgres.py:1015-1036): the UPDATE
    `SET partner_message_id=$1 WHERE id=$2 AND partner_message_id IS NULL`. -/
def save_partner_message_id (message_id : Int) (b : Booking) : Booking × Bool :=
  if b.partner_message_id = none then
    ({ b with partner_message_id := some message_id }, true)
  else
    (b, false)

/-! ## Storage layer: the timeout sweep over the whole table -/

/-- The WHERE clause of the sweep CTE (db_postgres.py:954-958):
    `status IN ('pending_partner','sent') AND
    COALESCE(dispatched_at, created_at) + interval '5 minutes' < NOW()`. -/
def expiredWhere (now : Nat) (b : Booking) : Bool :=
  (b.status = .pending_partner ∨ b.status = .sent)
    ∧ b.dispatched_at.getD b.created_at + 300 < now

/-- The SET clause of the sweep CTE: `SET status='timeout'`. -/
def timeoutSet (b : Booking) : Booking :=
  { b with status := .timeout }

/-- Semantics of a SQL `UPDATE ... SET ... WHERE ... RETURNING ...` over a
    table: first component is the table after the update, second the
    updated rows as returned. -/
def sqlUpdateReturning (setClause : Booking → Booking)
    (whereClause : Booking → Bool) (tbl : List Booking) :
    List Booking × List Booking :=
  (tbl.map fun b => if whereClause b then setClause b else b,
   (tbl.filter whereClause).map setClause)

/-- `fetch_expired_bookings` (db_postgres.py:939-985): the CTE
    `UPDATE bookings SET status='timeout' WHERE ... RETURNING ...`
    run at wall-clock `now` against the bookings table. -/
def fetch_expired_bookings (now : Nat) (tbl : List Booking) :
    List Booking × List Booking :=
  sqlUpdateReturning timeoutSet (expiredWhere now) tbl

/-! ## Phone normalization (src/listings_user_flow.py:986-996) -/

/-- First substitution of `_normalize_uz_phone`:
    `re.sub(r"[\s\-\(\)\+]", "", raw)` — strip common separators. -/
def stripSeparators (s : String) : String :=
  ⟨s.data.filter fun c =>
    ¬(c = ' ' ∨ c = '\t' ∨ c = '\n' ∨ c = '\r' ∨ c = '-' ∨ c = '(' ∨ c = ')' ∨ c = '+')⟩

/-- Second substitution: `re.sub(r"\D", "", digits)` — strip any
    remaining non-digit. -/
def stripNonDigits (s : String) : String :=
  ⟨s.data.filter Char.isDigit⟩

/-- `_normalize_uz_phone` (listings_user_flow.py:986-996).
    `digits.startswith("998")` is embedded as a comparison of the first
    three characters; `len(digits)` as the character count. -/
def _normalize_uz_phone (raw : String) : Option String :=
  let digits := stripNonDigits (stripSeparators raw)
  if digits.data.take 3 = ['9', '9', '8'] ∧ digits.data.length = 12 then
    some ("+" ++ digits)
  else if digits.data.length = 9 ∧ (digits.data.head?.any fun c => "3456789".data.contains c) then
    some ("+998" ++ digits)
  else
    none

/-- Modelled from the spec: the acceptance condition stated in words —
    after stripping, exactly 12-digit strings starting with 998, or
    9-digit strings whose first digit is in 3..9. -/
def uzPhoneSpecAccepts (digits : String) : Prop :=
  (digits.data.length = 12 ∧ digits.data.take 3 = ['9', '9', '8'])
    ∨ (digits.data.length = 9 ∧ ∃ c, digits.data.head? = some c ∧ '3' ≤ c ∧ c ≤ '9')

/-! ## Dispatch to owner (src/booking_dispatch.py) -/

/-- `_get_owner_id` (booking_dispatch.py:108-111):
    `owner = booking.get("owner_user_id") or booking.get("telegram_admin_id");
    return int(owner) if owner else 0`.  The second operand is the listing's
    `telegram_admin_id` from the get_booking LEFT JOIN (NULL when the
    listing row is missing). -/
def _get_owner_id (owner_user_id : Option Int) (telegram_admin_id : Option Int) : Int :=
  pyIntOrZero (pyOrOptInt owner_user_id telegram_admin_id)

/-- Result of one call to `dispatch_booking_to_owner`
    (booking_dispatch.py:118-178): the booking row afterwards, the returned
    Bool, the successful owner send (chat id, message id) if any, and the
    admin chat ids that received the "partner unreachable" escalation. -/
structure DispatchOutcome where
  booking : Booking
  returned : Bool
  ownerSend : Option (Int × Int)
  adminAlerts : List Int
deriving DecidableEq, Repr

/-- `dispatch_booking_to_owner` (booking_dispatch.py:118-178), for a booking
    row that exists.  `telegram_admin_id` is the joined listing column seen
    by `_get_owner_id`; `sendResult` models `safe_send_html` to the owner
    (`some message_id` on success, `none` on failure); `admins` is the
    configured ADMINS list.  The path with `owner_id = 0` logs and returns
    False without touching the row and without alerting anyone; the
    successful-send path calls `mark_booking_dispatched`; the failed-send
    path alerts every admin. -/
def dispatch_booking_to_owner (admins : List Int) (telegram_admin_id : Option Int)
    (sendResult : Option Int) (now : Nat) (b : Booking) : DispatchOutcome :=
  let owner_id := _get_owner_id b.owner_user_id telegram_admin_id
  if owner_id = 0 then
    ⟨b, false, none, []⟩
  else
    match sendResult with
    | some message_id =>
        ⟨(mark_booking_dispatched message_id now b).1, true,
          some (owner_id, message_id), []⟩
    | none =>
        ⟨b, false, none, admins⟩

/-! ## Owner accept/reject callback handlers (src/booking_dispatch.py) -/

/-- The alert shown to the acting owner by the callback handlers
    (booking_dispatch.py:209-338). `alreadyInProgress` is the answer
    "Bu bron allaqachon jarayonda" given when the atomic UPDATE matched
    zero rows — the booking was already finalized by a concurrent action. -/
inductive CbOutcome where
  | notFound
  | unauthorized
  | alreadyProcessed
  | alreadyInProgress
  | applied
deriving DecidableEq, Repr

/-- `accept_booking` callback handler (booking_dispatch.py:209-275), after
    the booking row `snapshot` was read (with the listing's
    `telegram_admin_id` from the join); `cur` is the row's state in the
    database when the atomic UPDATE runs — under concurrency it may differ
    from the snapshot. -/
def accept_booking_handler (snapshot : Booking) (telegram_admin_id : Option Int)
    (actor : Int) (cur : Booking) : Booking × CbOutcome :=
  let owner_id := _get_owner_id snapshot.owner_user_id telegram_admin_id
  if owner_id = 0 ∨ actor ≠ owner_id then
    (cur, .unauthorized)
  else if ¬(snapshot.status = .pending_partner ∨ snapshot.status = .sent) then
    (cur, .alreadyProcessed)
  else
    let res := accept_booking_atomic owner_id cur
    if res.2 then (res.1, .applied) else (cur, .alreadyInProgress)

/-- `reject_booking` callback handler (booking_dispatch.py:279-338),
    same structure with the atomic reject. -/
def reject_booking_handler (snapshot : Booking) (telegram_admin_id : Option Int)
    (actor : Int) (cur : Booking) : Booking × CbOutcome :=
  let owner_id := _get_owner_id snapshot.owner_user_id telegram_admin_id
  if owner_id = 0 ∨ actor ≠ owner_id then
    (cur, .unauthorized)
  else if ¬(snapshot.status = .pending_partner ∨ snapshot.status = .sent) then
    (cur, .alreadyProcessed)
  else
    let res := reject_booking_atomic owner_id cur
    if res.2 then (res.1, .applied) else (cur, .alreadyInProgress)

/-- Either of the two callback handlers, selected by the pressed button. -/
def owner_decision_handler (isAccept : Bool) (snapshot : Booking)
    (telegram_admin_id : Option Int) (actor : Int) (cur : Booking) :
    Booking × CbOutcome :=
  if isAccept then accept_booking_handler snapshot telegram_admin_id actor cur
  else reject_booking_handler snapshot telegram_admin_id actor cur

/-! ## Registration flow (src/listings_user_flow.py:41-140) -/

/-- FSM states of the `Registration` group plus the cleared state after
    completion. -/
inductive RegState where
  | contact
  | first_name
  | last_name
  | done
deriving DecidableEq, Repr

/-- The per-chat FSM data collected during registration. -/
structure RegData where
  phone : Option String
  first_name : Option String
deriving DecidableEq, Repr

structure RegConv where
  st : RegState
  data : RegData
deriving DecidableEq, Repr

/-- Python `str.strip()`: drop whitespace from both ends. -/
def pyStrip (s : String) : String :=
  ⟨(((s.data.dropWhile Char.isWhitespace).reverse.dropWhile Char.isWhitespace).reverse)⟩

/-- `process_contact` (listings_user_flow.py:61-82): rejects a contact not
    belonging to the sender, otherwise stores `contact.phone_number`
    verbatim in the FSM data and advances to `first_name`. -/
def process_contact (sender_id : Int) (contact_user_id : Int)
    (contact_phone : String) (r : RegConv) : RegConv :=
  if contact_user_id ≠ sender_id then r
  else ⟨.first_name, { r.data with phone := some contact_phone }⟩

/-- `process_first_name` (listings_user_flow.py:94-106): a stripped name of
    length ≥ 2 advances to `last_name`. -/
def process_first_name (text : String) (r : RegConv) : RegConv :=
  let name := pyStrip text
  if name.length < 2 then r
  else ⟨.last_name, { r.data with first_name := some name }⟩

/-- `process_last_name` (listings_user_flow.py:109-140): on a valid last
    name it calls `upsert_user(user_id, data.get("phone"), ...)` with the
    phone taken verbatim from the FSM data, and clears the state.  The
    second component is the users-table write (None when no write
    happened). -/
def process_last_name (user_id : Int) (text : String) (r : RegConv) :
    RegConv × Option UserRow :=
  let last_name := pyStrip text
  if last_name.length < 2 then (r, none)
  else
    (⟨.done, r.data⟩,
      some ⟨user_id, r.data.phone, r.data.first_name, some last_name⟩)

/-- The users-table row produced by a full registration run: contact share,
    then first name, then last name (listings_user_flow.py:61-140 with
    `upsert_user`, db_postgres.py:518-543, storing the phone argument
    verbatim). -/
def registration_run (sender_id contact_user_id : Int) (contact_phone : String)
    (first_name_text last_name_text : String) : Option UserRow :=
  let r0 : RegConv := ⟨.contact, ⟨none, none⟩⟩
  let r1 := process_contact sender_id contact_user_id contact_phone r0
  let r2 := process_first_name first_name_text r1
  (process_last_name sender_id last_name_text r2).2

/-- Modelled from the spec: the User phone invariant, the regular
    expression from the spec written as a predicate on the stored value:
    a single leading plus sign followed by 11 to 16 digits. -/
def phoneMatchesSpecRegex (s : String) : Bool :=
  match s.data with
  | '+' :: rest =>
      decide (11 ≤ rest.length) && decide (rest.length ≤ 16)
        && rest.all Char.isDigit
  | _ => false

/-! ## Storage-layer failure semantics (src/db_postgres.py) -/

/-- A database-level failure inside a storage call: the pool connection is
    lost or the query raises. -/
inductive DbError where
  | connectionLost
  | queryFailed
deriving DecidableEq, Repr

/-- `create_booking` (db_postgres.py:777-821) with its failure handling:
    missing pool → None; invalid UUID → None; the try/except around the
    INSERT catches every exception, logs it, and returns None. `query`
    models the INSERT outcome. -/
def create_booking_result (poolUp : Bool) (validUuid : Bool)
    (query : Except DbError Nat) : Option Nat :=
  if ¬poolUp then none
  else if ¬validUuid then none
  else
    match query with
    | .ok booking_id => some booking_id
    | .error _ => none

/-- `get_booking` (db_postgres.py:824-854) with its failure handling: the
    try/except catches every exception and returns None, the same value
    returned when the row does not exist (`query = .ok none`). -/
def get_booking_result (poolUp : Bool) (validUuid : Bool)
    (query : Except DbError (Option Booking)) : Option Booking :=
  if ¬poolUp then none
  else if ¬validUuid then none
  else
    match query with
    | .ok row => row
    | .error _ => none

/-- `fetch_expired_bookings` (db_postgres.py:939-985) with its failure
    handling: the try/except catches every exception and returns the empty
    list, the same value returned when no booking is expired. -/
def fetch_expired_bookings_result (poolUp : Bool)
    (query : Except DbError (List Booking)) : List Booking :=
  if ¬poolUp then []
  else
    match query with
    | .ok rows => rows
    | .error _ => []

/-! ## The status-changing queries of the storage layer, syntactically -/

/-- Syntactic shape of one status-changing SQL statement in
    db_postgres.py: the status values it writes, the expected-status set in
    its WHERE clause (`none` when the clause has no status constraint),
    whether the WHERE clause matches the owner chat id, and whether the
    operation is a single UPDATE statement (as opposed to a
    read-then-update sequence). -/
structure StatusWriteQuery where
  name : String
  whereStatusSet : Option (List BookingStatus)
  whereMatchesOwner : Bool
  singleUpdate : Bool
deriving DecidableEq, Repr

/-- Every operation of db_postgres.py whose SQL writes `bookings.status`,
    transcribed from the source:
    `update_booking_status` (857-877), `accept_booking_atomic` (880-907),
    `reject_booking_atomic` (910-936), `fetch_expired_bookings` CTE
    (939-985), `mark_booking_dispatched` (1039-1068). -/
def statusWriteQueries : List StatusWriteQuery :=
  [⟨"update_booking_status", none, false, true⟩,
   ⟨"accept_booking_atomic", some [.pending_partner, .sent], true, true⟩,
   ⟨"reject_booking_atomic", some [.pending_partner, .sent], true, true⟩,
   ⟨"fetch_expired_bookings", some [.pending_partner, .sent], false, true⟩,
   ⟨"mark_booking_dispatched", some [.pending_partner], false, true⟩]

/-! ## Booking creation and the reachable states of one booking's lifecycle -/

/-- Python `a or d` where `a : Option Int` and `d : Int`
    (`_listing_to_dict`, db_postgres.py:763:
    `row.get("owner_user_id") or row.get("telegram_admin_id", 0)`). -/
def pyOrIntDefault (a : Option Int) (d : Int) : Int :=
  match a with
  | some v => if v = 0 then d else v
  | none => d

/-- The `owner_user_id` entry of the listing dict returned by the storage
    layer (db_postgres.py:763). -/
def listing_dict_owner (L : Listing) : Int :=
  pyOrIntDefault L.owner_user_id L.telegram_admin_id

/-- The `owner_user_id` argument the booking-confirm handler passes to
    `create_booking` (listings_user_flow.py:1193:
    `listing.get("owner_user_id") or listing.get("telegram_admin_id", 0)`). -/
def booking_owner_arg (L : Listing) : Int :=
  if listing_dict_owner L = 0 then L.telegram_admin_id else listing_dict_owner L

/-- The bookings row inserted by `create_booking` (db_postgres.py:777-821)
    for the confirm handler's arguments: status 'pending_partner',
    `expires_at = now + 5 min`, `owner_user_id` stored as NULL when the
    argument is falsy (`int(owner_user_id) if owner_user_id else None`). -/
def create_booking_row (bid : Nat) (L : Listing) (user : Int) (payload : String)
    (t : Nat) : Booking :=
  ⟨bid, L.id, user,
    if booking_owner_arg L = 0 then none else some (booking_owner_arg L),
    payload, .pending_partner, t, none, some (t + 300), none⟩

/-- The state of one booking's lifecycle: the row (none before creation)
    and the log of successful sends to owners (chat id, message id). -/
structure Sys where
  booking : Option Booking
  sendLog : List (Int × Int)

/-- The transitions the application performs on one booking of listing `L`
    (listings_user_flow.py confirm handler, booking_dispatch.py dispatch,
    owner callbacks with an arbitrary — possibly stale — snapshot and an
    arbitrary actor, and the sweeper restricted to this row). -/
inductive Step (L : Listing) : Sys → Sys → Prop where
  | create (bid : Nat) (user : Int) (payload : String) (t : Nat)
      (log : List (Int × Int)) :
      Step L ⟨none, log⟩ ⟨some (create_booking_row bid L user payload t), log⟩
  | dispatch (admins : List Int) (sendResult : Option Int) (now : Nat)
      (b : Booking) (log : List (Int × Int)) :
      Step L ⟨some b, log⟩
        ⟨some (dispatch_booking_to_owner admins (some L.telegram_admin_id)
            sendResult now b).booking,
          log ++ ((dispatch_booking_to_owner admins (some L.telegram_admin_id)
            sendResult now b).ownerSend).toList⟩
  | ownerCallback (isAccept : Bool) (snapshot : Booking) (tadmin : Option Int)
      (actor : Int) (b : Booking) (log : List (Int × Int)) :
      Step L ⟨some b, log⟩
        ⟨some (owner_decision_handler isAccept snapshot tadmin actor b).1, log⟩
  | sweepRow (now : Nat) (b : Booking) (log : List (Int × Int)) :
      Step L ⟨some b, log⟩
        ⟨some (if expiredWhere now b then timeoutSet b else b), log⟩

/-- States reachable from the empty state by the application's own
    transitions. -/
def Reachable (L : Listing) : Sys → Prop :=
  Relation.ReflTransGen (Step L) ⟨none, []⟩

/-- The lifecycle invariant: the row's denormalized owner is exactly what
    creation stored, and a 'sent' row names a non-zero owner to whom a
    send succeeded. -/
def SysInv (L : Listing) (s : Sys) : Prop :=
  ∀ b, s.booking = some b →
    b.owner_user_id
        = (if booking_owner_arg L = 0 then none else some (booking_owner_arg L)) ∧
    (b.status = .sent →
      ∃ o, b.owner_user_id = some o ∧ o ≠ 0 ∧ ∃ mid, (o, mid) ∈ s.sendLog)

/-! ## Concrete rows used by witnesses and counterexamples -/

/-- A freshly created pending booking row (owner 5), as produced by
    `create_booking` for a listing owned by chat id 5. -/
def bookingPendingW : Booking :=
  ⟨1, 1, 2, some 5, "p", .pending_partner, 0, none, some 300, none⟩

/-- A pending booking row whose denormalized owner column is NULL. -/
def bookingNoOwnerW : Booking :=
  ⟨2, 1, 2, none, "p", .pending_partner, 0, none, some 300, none⟩

/-- A booking row already in the terminal status 'timeout'. -/
def bookingTimedOutW : Booking :=
  ⟨3, 1, 2, some 5, "p", .timeout, 0, none, some 300, none⟩

/-- A 'sent' booking dispatched at second 50: overdue from second 351 on. -/
def bookingOverdueW : Booking :=
  ⟨4, 1, 2, some 5, "p", .sent, 0, some 50, some 300, some 7⟩

/-- A pending booking created at second 200: not overdue before 501. -/
def bookingFreshW : Booking :=
  ⟨5, 1, 2, some 5, "p", .pending_partner, 200, none, some 500, none⟩

/-- A listing owned by chat id 7 (also its legacy admin id). -/
def listingW : Listing := ⟨1, 7, some 7⟩

/-- The booking row the confirm handler creates against `listingW`. -/
def bookingCreatedW : Booking := create_booking_row 1 listingW 2 "p" 0

/-- The outcome of dispatching `bookingCreatedW` when the send to the
    owner succeeds with message id 42 at second 10. -/
def dispatchOutcomeW : DispatchOutcome :=
  dispatch_booking_to_owner [] (some listingW.telegram_admin_id) (some 42) 10
    bookingCreatedW

/-- The lifecycle state after creating and successfully dispatching the
    booking of `listingW`. -/
def sysSentW : Sys :=
  ⟨some dispatchOutcomeW.booking, [] ++ dispatchOutcomeW.ownerSend.toList⟩

/-! ## Helper lemmas -/

lemma char_eq_of_toNat_eq {c d : Char} (h : c.toNat = d.toNat) : c = d := by
  apply Char.ext
  apply UInt32.ext
  simpa using h

lemma uz_leading_digit_cases (c : Char) (h1 : '3' ≤ c) (h2 : c ≤ '9') :
    c = '3' ∨ c = '4' ∨ c = '5' ∨ c = '6' ∨ c = '7' ∨ c = '8' ∨ c = '9' := by
  rw [Char.le_def] at h1 h2
  have h1' : 51 ≤ c.toNat := h1
  have h2' : c.toNat ≤ 57 := h2
  interval_cases h : c.toNat <;>
    first
      | exact Or.inl (char_eq_of_toNat_eq (by rw [h]; decide))
      | exact Or.inr (Or.inl (char_eq_of_toNat_eq (by rw [h]; decide)))
      | exact Or.inr (Or.inr (Or.inl (char_eq_of_toNat_eq (by rw [h]; decide))))
      | exact Or.inr (Or.inr (Or.inr (Or.inl (char_eq_of_toNat_eq (by rw [h]; decide)))))
      | exact Or.inr (Or.inr (Or.inr (Or.inr (Or.inl (char_eq_of_toNat_eq (by rw [h]; decide))))))
      | exact Or.inr (Or.inr (Or.inr (Or.inr (Or.inr (Or.inl (char_eq_of_toNat_eq (by rw [h]; decide)))))))
      | exact Or.inr (Or.inr (Or.inr (Or.inr (Or.inr (Or.inr (char_eq_of_toNat_eq (by rw [h]; decide)))))))

lemma option_any_eq_true_iff {α : Type} (p : α → Bool) (o : Option α) :
    o.any p = true ↔ ∃ a, o = some a ∧ p a = true := by
  cases o <;> simp [Option.any]

lemma mem_uz_leading_digits (c : Char) :
    "3456789".data.contains c = true ↔ ('3' ≤ c ∧ c ≤ '9') := by
  constructor
  · intro h
    have hmem : c ∈ ['3', '4', '5', '6', '7', '8', '9'] := by
      simpa using h
    fin_cases hmem <;> exact ⟨by decide, by decide⟩
  · rintro ⟨h1, h2⟩
    rcases uz_leading_digit_cases c h1 h2 with h | h | h | h | h | h | h <;>
      subst h <;> decide

/-! ## C9: phone normalization -/

/-- C9: `_normalize_uz_phone` maps "+998901234567", "998901234567" and
    "901234567" to the same value +998901234567, rejects "+123", and in
    general accepts exactly the inputs whose digit string (after stripping
    separators and non-digits) is a 12-digit string starting with 998 or a
    9-digit string whose first digit is in 3..9. -/
theorem normalize_uz_phone_characterization :
    _normalize_uz_phone "+998901234567" = some "+998901234567" ∧
    _normalize_uz_phone "998901234567" = some "+998901234567" ∧
    _normalize_uz_phone "901234567" = some "+998901234567" ∧
    _normalize_uz_phone "+123" = none ∧
    ∀ raw : String, (_normalize_uz_phone raw).isSome ↔
      uzPhoneSpecAccepts (stripNonDigits (stripSeparators raw)) := by
  refine ⟨by decide, by decide, by decide, by decide, ?_⟩
  intro raw
  simp only [_normalize_uz_phone, uzPhoneSpecAccepts]
  generalize stripNonDigits (stripSeparators raw) = digits
  split_ifs with h1 h2
  · simp only [Option.isSome_some, true_iff]
    exact Or.inl ⟨h1.2, h1.1⟩
  · simp only [Option.isSome_some, true_iff]
    obtain ⟨hlen, hhead⟩ := h2
    obtain ⟨c, hc, hmem⟩ := (option_any_eq_true_iff _ _).1 hhead
    exact Or.inr ⟨hlen, c, hc, (mem_uz_leading_digits c).1 hmem⟩
  · simp only [Option.isSome_none, Bool.false_eq_true, false_iff]
    rintro (⟨hlen, hpre⟩ | ⟨hlen, c, hc, hge, hle⟩)
    · exact h1 ⟨hpre, hlen⟩
    · exact h2 ⟨hlen, (option_any_eq_true_iff _ _).2
        ⟨c, hc, (mem_uz_leading_digits c).2 ⟨hge, hle⟩⟩⟩

/-! ## C6: mark_dispatched applied twice -/

/-- C6: applying `mark_booking_dispatched` twice with two different message
    ids leaves the first stored partner_message_id intact: the first call
    succeeds and stores the first id (COALESCE of NULL with it), the second
    matches zero rows (status is no longer 'pending_partner'), returns
    False and changes nothing. -/
theorem mark_dispatched_twice_keeps_first_id (b : Booking) (m1 m2 : Int)
    (t1 t2 : Nat) (hs : b.status = .pending_partner)
    (hp : b.partner_message_id = none) (_hne : m1 ≠ m2) :
    ((mark_booking_dispatched m1 t1 b).2 = true) ∧
    ((mark_booking_dispatched m1 t1 b).1.partner_message_id = some m1) ∧
    ((mark_booking_dispatched m2 t2 (mark_booking_dispatched m1 t1 b).1).2 = false) ∧
    ((mark_booking_dispatched m2 t2 (mark_booking_dispatched m1 t1 b).1).1
        = (mark_booking_dispatched m1 t1 b).1) ∧
    ((mark_booking_dispatched m2 t2 (mark_booking_dispatched m1 t1 b).1).1.partner_message_id
        = some m1) := by
  simp [mark_booking_dispatched, hs, hp]

/-- Witness for C6 at a concrete pending booking with no stored message id. -/
theorem mark_dispatched_twice_keeps_first_id_witness :
    ((mark_booking_dispatched 7 1 bookingPendingW).2 = true) ∧
    ((mark_booking_dispatched 7 1 bookingPendingW).1.partner_message_id = some 7) ∧
    ((mark_booking_dispatched 8 2 (mark_booking_dispatched 7 1 bookingPendingW).1).2 = false) ∧
    ((mark_booking_dispatched 8 2 (mark_booking_dispatched 7 1 bookingPendingW).1).1
        = (mark_booking_dispatched 7 1 bookingPendingW).1) ∧
    ((mark_booking_dispatched 8 2 (mark_booking_dispatched 7 1 bookingPendingW).1).1.partner_message_id
        = some 7) :=
  mark_dispatched_twice_keeps_first_id bookingPendingW 7 8 1 2 rfl rfl (by decide)

/-! ## C2: guarded status writes -/

/-- C2 (counterexample): the claim that every status-changing storage
    operation constrains the expected current status set in its WHERE
    clause is false — `update_booking_status` writes status with a WHERE
    clause on the id only, and, semantically, it succeeds even from the
    terminal status 'timeout'. -/
theorem unguarded_status_write_exists :
    (¬ ∀ q ∈ statusWriteQueries, q.whereStatusSet.isSome = true) ∧
    (update_booking_status .accepted bookingTimedOutW).2 = true ∧
    (update_booking_status .accepted bookingTimedOutW).1.status = .accepted := by
  refine ⟨fun h => ?_, rfl, rfl⟩
  have := h ⟨"update_booking_status", none, false, true⟩ (by decide)
  simp at this

/-- C2 (amended): every status-changing operation of the storage layer
    except `update_booking_status` (which is never called anywhere in the
    repository) is a single SQL UPDATE whose WHERE clause constrains the
    expected current status set, and the owner accept/reject operations
    additionally constrain the expected owner chat id. -/
theorem status_writes_guarded_except_dead_code :
    ∀ q ∈ statusWriteQueries, q.name ≠ "update_booking_status" →
      q.whereStatusSet.isSome = true ∧ q.singleUpdate = true ∧
      ((q.name = "accept_booking_atomic" ∨ q.name = "reject_booking_atomic") →
        q.whereMatchesOwner = true) := by
  decide

/-- Witness for the amended C2 at the accept query. -/
theorem status_writes_guarded_except_dead_code_witness :
    (⟨"accept_booking_atomic", some [.pending_partner, .sent], true, true⟩
        : StatusWriteQuery).whereStatusSet.isSome = true ∧
    (⟨"accept_booking_atomic", some [.pending_partner, .sent], true, true⟩
        : StatusWriteQuery).singleUpdate = true ∧
    ((⟨"accept_booking_atomic", some [.pending_partner, .sent], true, true⟩
        : StatusWriteQuery).name = "accept_booking_atomic" ∨
      (⟨"accept_booking_atomic", some [.pending_partner, .sent], true, true⟩
        : StatusWriteQuery).name = "reject_booking_atomic" →
      (⟨"accept_booking_atomic", some [.pending_partner, .sent], true, true⟩
        : StatusWriteQuery).whereMatchesOwner = true) :=
  status_writes_guarded_except_dead_code
    ⟨"accept_booking_atomic", some [.pending_partner, .sent], true, true⟩
    (by decide) (by decide)

/-! ## C7: storage failure semantics -/

/-- C7 (counterexample): a connection loss inside `get_booking` does not
    surface a typed error — the call returns None, the very value an
    ordinary "row not found" result produces; `create_booking` returns
    None and `fetch_expired_bookings` returns the empty list likewise. -/
theorem storage_failure_swallowed :
    get_booking_result true true (.error .connectionLost)
        = get_booking_result true true (.ok none) ∧
    get_booking_result true true (.ok none) = none ∧
    create_booking_result true true (.error .connectionLost) = none ∧
    fetch_expired_bookings_result true (.error .connectionLost) = [] :=
  ⟨rfl, rfl, rfl, rfl⟩

/-- C7 (amended): every storage-layer request that encounters a connection
    loss or query failure catches the exception, logs it, and returns the
    operation's sentinel value (None for create_booking and get_booking,
    the empty list for fetch_expired_bookings), indistinguishable from an
    ordinary empty result; no error value reaches the caller. -/
theorem storage_failures_return_sentinels :
    ∀ e : DbError,
      create_booking_result true true (.error e) = none ∧
      get_booking_result true true (.error e) = none ∧
      fetch_expired_bookings_result true (.error e) = [] := by
  intro e
  exact ⟨rfl, rfl, rfl⟩

/-! ## C8: registration phone invariant -/

/-- C8 (counterexample): a registration completed from a shared Telegram
    contact whose phone_number lacks the leading plus stores the phone
    verbatim, violating the invariant that stored User phones match
    a plus sign followed by 11..16 digits. -/
theorem registration_violates_phone_regex :
    registration_run 1 1 "998901234567" "Ali" "Valiev"
        = some ⟨1, some "998901234567", some "Ali", some "Valiev"⟩ ∧
    phoneMatchesSpecRegex "998901234567" = false := by
  exact ⟨rfl, rfl⟩

/-- C8 (amended): the registration flow stores the shared contact's
    phone_number verbatim (no normalization), so the stored User phone
    matches the required pattern if and only if the contact's phone_number
    already does. -/
theorem registration_stores_contact_phone_verbatim
    (sender contact_user : Int) (phone fn ln : String)
    (hc : contact_user = sender)
    (hf : 2 ≤ (pyStrip fn).length) (hl : 2 ≤ (pyStrip ln).length) :
    ∃ u : UserRow,
      registration_run sender contact_user phone fn ln = some u ∧
      u.phone = some phone ∧
      (phoneMatchesSpecRegex ((u.phone).getD "")
        = phoneMatchesSpecRegex phone) := by
  subst hc
  refine ⟨⟨contact_user, some phone, some (pyStrip fn), some (pyStrip ln)⟩, ?_, rfl, rfl⟩
  unfold registration_run process_contact process_first_name process_last_name
  simp [Nat.not_lt.2 hf, Nat.not_lt.2 hl]

/-- Witness for the amended C8 on a contact phone that carries the plus. -/
theorem registration_stores_contact_phone_verbatim_witness :
    ∃ u : UserRow,
      registration_run 9 9 "+998901234567" "Ali" "Valiev" = some u ∧
      u.phone = some "+998901234567" ∧
      (phoneMatchesSpecRegex ((u.phone).getD "")
        = phoneMatchesSpecRegex "+998901234567") :=
  registration_stores_contact_phone_verbatim 9 9 "+998901234567" "Ali" "Valiev"
    rfl (by decide) (by decide)

/-! ## C5: dispatch with unresolvable owner -/

/-- C5 (counterexample): when the owner chat id resolves to zero the
    dispatcher escalates to no admin at all — it logs and returns False,
    leaving the booking untouched; in particular admin 11 of the
    configured list [11, 22] receives nothing. -/
theorem zero_owner_dispatch_skips_escalation :
    _get_owner_id bookingNoOwnerW.owner_user_id none = 0 ∧
    (dispatch_booking_to_owner [11, 22] none (some 99) 0 bookingNoOwnerW).adminAlerts = [] ∧
    ¬((11 : Int) ∈ (dispatch_booking_to_owner [11, 22] none (some 99) 0
        bookingNoOwnerW).adminAlerts) ∧
    (dispatch_booking_to_owner [11, 22] none (some 99) 0 bookingNoOwnerW).booking
        = bookingNoOwnerW ∧
    (dispatch_booking_to_owner [11, 22] none (some 99) 0 bookingNoOwnerW).returned
        = false := by
  refine ⟨rfl, rfl, ?_, rfl, rfl⟩
  intro h
  simp [dispatch_booking_to_owner, _get_owner_id, pyOrOptInt, pyIntOrZero,
    bookingNoOwnerW] at h

/-- C5 (amended): when dispatch resolves the owner chat id to zero it
    returns False immediately, leaving the booking row untouched (so a
    pending_partner booking stays pending_partner) and alerting nobody;
    the escalation to every configured admin happens only when the
    resolved owner is non-zero and the send to the owner fails. -/
theorem zero_owner_dispatch_returns_without_escalation
    (admins : List Int) (tadmin : Option Int) (sendResult : Option Int)
    (now : Nat) (b : Booking) :
    (_get_owner_id b.owner_user_id tadmin = 0 →
      dispatch_booking_to_owner admins tadmin sendResult now b
        = ⟨b, false, none, []⟩) ∧
    (_get_owner_id b.owner_user_id tadmin ≠ 0 → sendResult = none →
      dispatch_booking_to_owner admins tadmin sendResult now b
        = ⟨b, false, none, admins⟩) := by
  constructor
  · intro h
    simp [dispatch_booking_to_owner, h]
  · intro h hs
    subst hs
    simp [dispatch_booking_to_owner, h]

/-- Witness for the amended C5: the zero-owner branch on a concrete
    ownerless booking and the failed-send branch on a concrete owned one. -/
theorem zero_owner_dispatch_returns_without_escalation_witness :
    (_get_owner_id bookingNoOwnerW.owner_user_id none = 0 →
      dispatch_booking_to_owner [11, 22] none (some 99) 0 bookingNoOwnerW
        = ⟨bookingNoOwnerW, false, none, []⟩) ∧
    (_get_owner_id bookingNoOwnerW.owner_user_id none ≠ 0 → (some 99 : Option Int) = none →
      dispatch_booking_to_owner [11, 22] none (some 99) 0 bookingNoOwnerW
        = ⟨bookingNoOwnerW, false, none, [11, 22]⟩) :=
  zero_owner_dispatch_returns_without_escalation [11, 22] none (some 99) 0 bookingNoOwnerW

/-! ## C1: concurrent accept/reject race -/

/-- C1: two concurrent accept/reject attempts by the booking's owner, both
    acting on the same pre-race snapshot, serialize at the database row:
    the first atomic UPDATE succeeds and is reported `applied`, the second
    matches zero rows and is reported to the actor as already finalized
    ("Bu bron allaqachon jarayonda"), the second leaves the row unchanged,
    and the booking ends in exactly the one terminal status chosen by the
    winning attempt. -/
theorem concurrent_owner_decisions_race (b : Booking) (tadmin : Option Int)
    (o : Int) (d1 d2 : Bool)
    (hstat : b.status = .pending_partner ∨ b.status = .sent)
    (hown : b.owner_user_id = some o) (ho : o ≠ 0) :
    (owner_decision_handler d1 b tadmin o b).2 = .applied ∧
    (owner_decision_handler d2 b tadmin o
        (owner_decision_handler d1 b tadmin o b).1).2 = .alreadyInProgress ∧
    (owner_decision_handler d2 b tadmin o
        (owner_decision_handler d1 b tadmin o b).1).1
      = (owner_decision_handler d1 b tadmin o b).1 ∧
    (owner_decision_handler d1 b tadmin o b).1.status
      = (if d1 then .accepted else .rejected) ∧
    ((owner_decision_handler d1 b tadmin o b).1.status).isTerminal = true := by
  have hresolve : _get_owner_id (some o) tadmin = o := by
    simp [_get_owner_id, pyOrOptInt, pyIntOrZero, ho]
  rcases hstat with hs | hs <;> cases d1 <;> cases d2 <;>
    simp [owner_decision_handler, accept_booking_handler, reject_booking_handler,
      hresolve, hs, ho, accept_booking_atomic, reject_booking_atomic, hown,
      BookingStatus.isTerminal]

/-- Witness for C1: an accept racing a reject on a concrete dispatched
    booking owned by chat id 5. -/
theorem concurrent_owner_decisions_race_witness :
    (owner_decision_handler true bookingPendingW none 5 bookingPendingW).2 = .applied ∧
    (owner_decision_handler false bookingPendingW none 5
        (owner_decision_handler true bookingPendingW none 5 bookingPendingW).1).2
      = .alreadyInProgress ∧
    (owner_decision_handler false bookingPendingW none 5
        (owner_decision_handler true bookingPendingW none 5 bookingPendingW).1).1
      = (owner_decision_handler true bookingPendingW none 5 bookingPendingW).1 ∧
    (owner_decision_handler true bookingPendingW none 5 bookingPendingW).1.status
      = (if true then .accepted else .rejected) ∧
    ((owner_decision_handler true bookingPendingW none 5
        bookingPendingW).1.status).isTerminal = true :=
  concurrent_owner_decisions_race bookingPendingW none 5 true false
    (Or.inl rfl) rfl (by decide)

/-! ## Sweep lemmas shared by C3 and C10 -/

lemma timeoutSet_id (b : Booking) : (timeoutSet b).id = b.id := rfl

lemma sweep_table_ids (now : Nat) (tbl : List Booking) :
    (fetch_expired_bookings now tbl).1.map Booking.id = tbl.map Booking.id := by
  simp only [fetch_expired_bookings, sqlUpdateReturning, List.map_map]
  apply List.map_congr_left
  intro b _
  by_cases h : expiredWhere now b = true <;> simp [h, timeoutSet]

lemma sweep_returned_mem (now : Nat) (tbl : List Booking) {x : Booking}
    (hx : x ∈ (fetch_expired_bookings now tbl).2) :
    ∃ b ∈ tbl, expiredWhere now b = true ∧ x = timeoutSet b := by
  simp only [fetch_expired_bookings, sqlUpdateReturning, List.mem_map,
    List.mem_filter] at hx
  obtain ⟨b, ⟨hb, hcond⟩, hxb⟩ := hx
  exact ⟨b, hb, hcond, hxb.symm⟩

/-! ## C3: the sweep expires exactly the overdue bookings, exactly once -/

/-- C3: at wall-clock `now`, the sweep's CTE transitions to 'timeout'
    exactly the bookings whose status is pending_partner or sent and whose
    COALESCE(dispatched_at, created_at) + 5 minutes is strictly before
    `now`: (i) a booking is returned iff it satisfies that condition,
    (ii) a booking not satisfying it is left in the table unchanged, (iii)
    a booking still within its deadline is never returned, and (iv) a
    second sweep over the updated table (the serialization of a concurrent
    sweeper under row-level locking) returns none of the bookings the
    first sweep returned. -/
theorem sweep_expires_exactly_overdue (now : Nat) (tbl : List Booking)
    (hnd : (tbl.map Booking.id).Nodup) :
    (∀ b ∈ tbl, (expiredWhere now b = true ↔
        b.id ∈ (fetch_expired_bookings now tbl).2.map Booking.id)) ∧
    (∀ b ∈ tbl, expiredWhere now b = false →
        b ∈ (fetch_expired_bookings now tbl).1) ∧
    (∀ b ∈ tbl, (b.status = .pending_partner ∨ b.status = .sent) →
        now ≤ b.dispatched_at.getD b.created_at + 300 →
        b.id ∉ (fetch_expired_bookings now tbl).2.map Booking.id) ∧
    (∀ now2 : Nat, ∀ i ∈ (fetch_expired_bookings now tbl).2.map Booking.id,
        i ∉ (fetch_expired_bookings now2
            (fetch_expired_bookings now tbl).1).2.map Booking.id) := by
  have hinj := List.inj_on_of_nodup_map hnd
  refine ⟨?_, ?_, ?_, ?_⟩
  · intro b hb
    constructor
    · intro hcond
      simp only [fetch_expired_bookings, sqlUpdateReturning, List.map_map,
        List.mem_map, List.mem_filter]
      exact ⟨b, ⟨hb, hcond⟩, rfl⟩
    · intro hmem
      simp only [List.mem_map] at hmem
      obtain ⟨x, hx, hxid⟩ := hmem
      obtain ⟨b', hb', hcond', hxb'⟩ := sweep_returned_mem now tbl hx
      have : b' = b := hinj hb' hb (by rw [← hxid, hxb', timeoutSet_id])
      rwa [← this]
  · intro b hb hcond
    simp only [fetch_expired_bookings, sqlUpdateReturning]
    have : (if expiredWhere now b then timeoutSet b else b) = b := by
      rw [hcond]
      simp
    rw [← this]
    exact List.mem_map_of_mem _ hb
  · intro b hb hstat htime hmem
    simp only [List.mem_map] at hmem
    obtain ⟨x, hx, hxid⟩ := hmem
    obtain ⟨b', hb', hcond', hxb'⟩ := sweep_returned_mem now tbl hx
    have hbb : b' = b := hinj hb' hb (by rw [← hxid, hxb', timeoutSet_id])
    rw [hbb] at hcond'
    simp only [expiredWhere, decide_eq_true_eq] at hcond'
    omega
  · intro now2 i hi1 hi2
    simp only [List.mem_map] at hi1 hi2
    obtain ⟨x, hx, hxid⟩ := hi1
    obtain ⟨b, hb, hcond, hxb⟩ := sweep_returned_mem now tbl hx
    obtain ⟨y, hy, hyid⟩ := hi2
    obtain ⟨c, hc, hcond2, hyc⟩ :=
      sweep_returned_mem now2 (fetch_expired_bookings now tbl).1 hy
    have hnd1 : ((fetch_expired_bookings now tbl).1.map Booking.id).Nodup := by
      rw [sweep_table_ids]
      exact hnd
    have hinj1 := List.inj_on_of_nodup_map hnd1
    have htb : timeoutSet b ∈ (fetch_expired_bookings now tbl).1 := by
      simp only [fetch_expired_bookings, sqlUpdateReturning, List.mem_map]
      exact ⟨b, hb, by simp [hcond]⟩
    have hcb : c = timeoutSet b := by
      apply hinj1 hc htb
      rw [timeoutSet_id]
      have h1 : c.id = i := by rw [← hyid, hyc, timeoutSet_id]
      have h2 : b.id = i := by rw [← hxid, hxb, timeoutSet_id]
      rw [h1, h2]
    rw [hcb] at hcond2
    simp [expiredWhere, timeoutSet] at hcond2

/-- Witness for C3: one overdue 'sent' booking and one fresh pending
    booking; the sweep at time 400 returns exactly the overdue one and a
    second sweep returns nothing. -/
theorem sweep_expires_exactly_overdue_witness :
    (∀ b ∈ [bookingOverdueW, bookingFreshW], (expiredWhere 400 b = true ↔
        b.id ∈ (fetch_expired_bookings 400
          [bookingOverdueW, bookingFreshW]).2.map Booking.id)) ∧
    (∀ b ∈ [bookingOverdueW, bookingFreshW], expiredWhere 400 b = false →
        b ∈ (fetch_expired_bookings 400 [bookingOverdueW, bookingFreshW]).1) ∧
    (∀ b ∈ [bookingOverdueW, bookingFreshW],
        (b.status = .pending_partner ∨ b.status = .sent) →
        400 ≤ b.dispatched_at.getD b.created_at + 300 →
        b.id ∉ (fetch_expired_bookings 400
          [bookingOverdueW, bookingFreshW]).2.map Booking.id) ∧
    (∀ now2 : Nat, ∀ i ∈ (fetch_expired_bookings 400
          [bookingOverdueW, bookingFreshW]).2.map Booking.id,
        i ∉ (fetch_expired_bookings now2 (fetch_expired_bookings 400
          [bookingOverdueW, bookingFreshW]).1).2.map Booking.id) :=
  sweep_expires_exactly_overdue 400 [bookingOverdueW, bookingFreshW] (by decide)

/-! ## C10: the sweep is frame-preserving -/

/-- C10: the sweep modifies only the status field: at every position of
    the table, every field except status is unchanged; the status becomes
    'timeout' exactly when the expiry condition holds, and a row not
    satisfying the condition is left entirely unchanged. -/
theorem sweep_modifies_only_status (now : Nat) (tbl : List Booking) (i : Nat)
    (b b2 : Booking) (hb : tbl[i]? = some b)
    (hb2 : (fetch_expired_bookings now tbl).1[i]? = some b2) :
    (b2.id = b.id ∧ b2.listing_id = b.listing_id ∧
      b2.user_telegram_id = b.user_telegram_id ∧
      b2.owner_user_id = b.owner_user_id ∧ b2.payload = b.payload ∧
      b2.created_at = b.created_at ∧ b2.dispatched_at = b.dispatched_at ∧
      b2.expires_at = b.expires_at ∧
      b2.partner_message_id = b.partner_message_id) ∧
    b2.status = (if expiredWhere now b then .timeout else b.status) ∧
    (expiredWhere now b = false → b2 = b) := by
  simp only [fetch_expired_bookings, sqlUpdateReturning, List.getElem?_map,
    hb] at hb2
  have hb3 : (if expiredWhere now b = true then timeoutSet b else b) = b2 := by
    simpa using hb2
  subst hb3
  by_cases hc : expiredWhere now b = true
  · rw [hc]
    simp [timeoutSet]
  · rw [Bool.not_eq_true] at hc
    rw [hc]
    simp

/-- Witness for C10 at position 0 of a two-row table under an overdue
    clock. -/
theorem sweep_modifies_only_status_witness :
    ((timeoutSet bookingOverdueW).id = bookingOverdueW.id ∧
      (timeoutSet bookingOverdueW).listing_id = bookingOverdueW.listing_id ∧
      (timeoutSet bookingOverdueW).user_telegram_id
          = bookingOverdueW.user_telegram_id ∧
      (timeoutSet bookingOverdueW).owner_user_id = bookingOverdueW.owner_user_id ∧
      (timeoutSet bookingOverdueW).payload = bookingOverdueW.payload ∧
      (timeoutSet bookingOverdueW).created_at = bookingOverdueW.created_at ∧
      (timeoutSet bookingOverdueW).dispatched_at = bookingOverdueW.dispatched_at ∧
      (timeoutSet bookingOverdueW).expires_at = bookingOverdueW.expires_at ∧
      (timeoutSet bookingOverdueW).partner_message_id
          = bookingOverdueW.partner_message_id) ∧
    (timeoutSet bookingOverdueW).status
        = (if expiredWhere 400 bookingOverdueW then .timeout
            else bookingOverdueW.status) ∧
    (expiredWhere 400 bookingOverdueW = false →
      timeoutSet bookingOverdueW = bookingOverdueW) :=
  sweep_modifies_only_status 400 [bookingOverdueW, bookingFreshW] 0
    bookingOverdueW (timeoutSet bookingOverdueW) (by decide) (by decide)

/-! ## C4: 'sent' requires a non-zero owner and a successful send -/

lemma dispatch_booking_to_owner_cases (admins : List Int) (tadmin : Option Int)
    (sendResult : Option Int) (now : Nat) (b : Booking) :
    dispatch_booking_to_owner admins tadmin sendResult now b
        = ⟨b, false, none, []⟩ ∨
    dispatch_booking_to_owner admins tadmin sendResult now b
        = ⟨b, false, none, admins⟩ ∨
    (∃ mid, sendResult = some mid ∧
      _get_owner_id b.owner_user_id tadmin ≠ 0 ∧
      dispatch_booking_to_owner admins tadmin sendResult now b
        = ⟨(mark_booking_dispatched mid now b).1, true,
            some (_get_owner_id b.owner_user_id tadmin, mid), []⟩) := by
  by_cases h : _get_owner_id b.owner_user_id tadmin = 0
  · left
    simp [dispatch_booking_to_owner, h]
  · cases sendResult with
    | some mid =>
        right; right
        exact ⟨mid, rfl, h, by simp [dispatch_booking_to_owner, h]⟩
    | none =>
        right; left
        simp [dispatch_booking_to_owner, h]

lemma owner_decision_handler_result_cases (isAccept : Bool) (snapshot : Booking)
    (tadmin : Option Int) (actor : Int) (b : Booking) :
    (owner_decision_handler isAccept snapshot tadmin actor b).1 = b ∨
    (owner_decision_handler isAccept snapshot tadmin actor b).1
        = { b with status := .accepted } ∨
    (owner_decision_handler isAccept snapshot tadmin actor b).1
        = { b with status := .rejected } := by
  cases isAccept <;>
    simp only [owner_decision_handler, accept_booking_handler,
      reject_booking_handler, accept_booking_atomic, reject_booking_atomic,
      Bool.false_eq_true, if_false, if_true] <;>
    split_ifs <;> simp

lemma mark_booking_dispatched_result_cases (mid : Int) (now : Nat) (b : Booking) :
    ((mark_booking_dispatched mid now b).1 = b ∧ b.status ≠ .pending_partner) ∨
    (b.status = .pending_partner ∧
      (mark_booking_dispatched mid now b).1
        = { b with
              status := .sent,
              dispatched_at := some now,
              partner_message_id := some (b.partner_message_id.getD mid) }) := by
  by_cases h : b.status = .pending_partner
  · right
    exact ⟨h, by simp [mark_booking_dispatched, h]⟩
  · left
    exact ⟨by simp [mark_booking_dispatched, h], h⟩

lemma booking_owner_arg_resolution (L : Listing) :
    (booking_owner_arg L = 0 →
      _get_owner_id none (some L.telegram_admin_id) = 0) ∧
    (booking_owner_arg L ≠ 0 →
      _get_owner_id (some (booking_owner_arg L)) (some L.telegram_admin_id)
        = booking_owner_arg L) := by
  constructor
  · intro h
    have hadm : L.telegram_admin_id = 0 := by
      by_cases hd : listing_dict_owner L = 0
      · simpa [booking_owner_arg, hd] using h
      · exact absurd h (by simp [booking_owner_arg, hd, hd])
    simp [_get_owner_id, pyOrOptInt, pyIntOrZero, hadm]
  · intro h
    simp [_get_owner_id, pyOrOptInt, pyIntOrZero, h]

lemma sysInv_step {L : Listing} {s s' : Sys} (hstep : Step L s s')
    (hs : SysInv L s) : SysInv L s' := by
  cases hstep with
  | create bid user payload t log =>
      intro b hb
      simp only [Option.some_inj] at hb
      subst hb
      refine ⟨rfl, ?_⟩
      intro hsent
      simp [create_booking_row] at hsent
  | dispatch admins sendResult now b0 log =>
      intro b hb
      simp only [Option.some_inj] at hb
      obtain ⟨hown0, hsent0⟩ := hs b0 rfl
      rcases dispatch_booking_to_owner_cases admins (some L.telegram_admin_id)
          sendResult now b0 with hd | hd | ⟨mid, hsr, hnz, hd⟩ <;>
        rw [hd] at hb ⊢
      · subst hb
        exact ⟨hown0, fun hsent =>
          (hsent0 hsent).imp fun o ⟨h1, h2, midw, h3⟩ =>
            ⟨h1, h2, midw, List.mem_append_left _ h3⟩⟩
      · subst hb
        exact ⟨hown0, fun hsent =>
          (hsent0 hsent).imp fun o ⟨h1, h2, midw, h3⟩ =>
            ⟨h1, h2, midw, List.mem_append_left _ h3⟩⟩
      · rcases mark_booking_dispatched_result_cases mid now b0 with
          ⟨hm, hnp⟩ | ⟨hp, hm⟩
        · rw [hm] at hb
          subst hb
          exact ⟨hown0, fun hsent =>
            (hsent0 hsent).imp fun o ⟨h1, h2, midw, h3⟩ =>
              ⟨h1, h2, midw, List.mem_append_left _ h3⟩⟩
        · rw [hm] at hb
          subst hb
          refine ⟨hown0, ?_⟩
          intro _
          by_cases harg : booking_owner_arg L = 0
          · exfalso
            rw [hown0] at hnz
            rw [if_pos harg] at hnz
            exact hnz ((booking_owner_arg_resolution L).1 harg)
          · refine ⟨booking_owner_arg L, ?_, harg, mid, ?_⟩
            · simp [hown0, harg]
            · rw [hown0, if_neg harg] at hnz ⊢
              rw [(booking_owner_arg_resolution L).2 harg]
              simp
  | ownerCallback isAccept snapshot tadmin actor b0 log =>
      intro b hb
      simp only [Option.some_inj] at hb
      obtain ⟨hown0, hsent0⟩ := hs b0 rfl
      rcases owner_decision_handler_result_cases isAccept snapshot tadmin
          actor b0 with hr | hr | hr <;> rw [hr] at hb <;> subst hb
      · exact ⟨hown0, hsent0⟩
      · exact ⟨hown0, fun hsent => by simp at hsent⟩
      · exact ⟨hown0, fun hsent => by simp at hsent⟩
  | sweepRow now b0 log =>
      intro b hb
      simp only [Option.some_inj] at hb
      obtain ⟨hown0, hsent0⟩ := hs b0 rfl
      by_cases hc : expiredWhere now b0 = true <;>
        simp only [hc, if_true, Bool.not_eq_true, if_false] at hb <;> subst hb
      · exact ⟨hown0, fun hsent => by simp [timeoutSet] at hsent⟩
      · exact ⟨hown0, hsent0⟩

lemma sysInv_reachable {L : Listing} {s : Sys} (h : Reachable L s) :
    SysInv L s := by
  unfold Reachable at h
  induction h with
  | refl =>
      intro b hb
      simp at hb
  | tail _ hstep ih =>
      exact sysInv_step hstep ih

/-- C4: in every reachable state of a booking's lifecycle, status 'sent'
    implies the booking's denormalized owner chat id is a non-zero value
    `o` and a message send to `o` succeeded (it is in the send log) —
    `mark_booking_dispatched` runs only after a successful send to a
    resolved non-zero owner, so a booking whose owner chat id is 0 or
    missing is never marked 'sent'. -/
theorem sent_requires_owner_and_successful_send (L : Listing) (s : Sys)
    (h : Reachable L s) (b : Booking) (hb : s.booking = some b)
    (hsent : b.status = .sent) :
    ∃ o, b.owner_user_id = some o ∧ o ≠ 0 ∧ ∃ mid, (o, mid) ∈ s.sendLog :=
  ((sysInv_reachable h) b hb).2 hsent

/-- Witness for C4: create-then-dispatch against `listingW` with a
    successful send reaches a 'sent' state; the theorem yields owner 7 and
    the logged message 42. -/
theorem sent_requires_owner_and_successful_send_witness :
    ∃ o, dispatchOutcomeW.booking.owner_user_id = some o ∧ o ≠ 0 ∧
      ∃ mid, (o, mid) ∈ sysSentW.sendLog :=
  sent_requires_owner_and_successful_send listingW sysSentW
    (Relation.ReflTransGen.tail
      (Relation.ReflTransGen.single (Step.create 1 2 "p" 0 []))
      (Step.dispatch [] (some 42) 10 bookingCreatedW []))
    dispatchOutcomeW.booking rfl (by decide)

end Safartrip
